import Mathlib

/-!
Verification of the packet framing and dispatch core of the `stalker`
BLE host driver (`stalker/bluetooth.py`, `stalker/gatt.py`).

The embedding models:
  * `struct.pack` / `struct.calcsize` over the little-endian format
    primitives the code uses (`B`, `H`, `L`, `Ns`), as `packField`,
    `packValues` and `calcsize` over a `FieldSpec` layout.  A pack that
    Python would abort with `struct.error` (value out of range, argument
    count mismatch, type mismatch) is `none`.
  * `Command` / `Event` frames with their `serialize`, `parse` and
    `from_data` operations (`Packet.from_data` checks the leading type
    byte against the subclass tag).
  * the reader loop (`BluetoothDevice.reader`): the serial transport is a
    list of `Chunk`s, one per `serial.read(n)` call — either the bytes
    that call returned (possibly short or empty on timeout) or a fault
    (`serial.SerialException`).  The loop result records the emitted
    notifications, how the loop ended, and the `alive` flag (only the
    caught `SerialException` handler clears it; `KeyError` from the LE
    sub-event table and `struct.error`/`IndexError` from short reads
    escape uncaught).
  * the writer loop (`BluetoothDevice.writer`): a list of queue-poll
    results; any exception (write fault or serialization error) is
    caught by the bare `except`, clears `alive`, and ends the loop.
-/

/-- A primitive field of a `struct` format string: `B`, `H`, `L`, `Ns`. -/
inductive FieldSpec
  | u8
  | u16
  | u32
  | bytes (n : Nat)
deriving DecidableEq

/-- A value handed to `struct.pack`: a Python int or a byte string. -/
inductive Value
  | nat (n : Nat)
  | str (s : List Nat)
deriving DecidableEq

/-- Size in bytes of one field (standard sizes, `<` prefixed format). -/
def fieldSize : FieldSpec → Nat
  | .u8 => 1
  | .u16 => 2
  | .u32 => 4
  | .bytes n => n

/-- `struct.calcsize` over a layout (little-endian, no padding). -/
def calcsize (fs : List FieldSpec) : Nat :=
  (fs.map fieldSize).sum

/-- Pack one field.  Out-of-range ints and type mismatches raise
`struct.error` in Python, modelled as `none`.  A `Ns` field pads a short
string with zero bytes and silently truncates a long one. -/
def packField : FieldSpec → Value → Option (List Nat)
  | .u8, .nat n => if n ≤ 0xff then some [n] else none
  | .u16, .nat n => if n ≤ 0xffff then some [n % 256, n / 256] else none
  | .u32, .nat n =>
      if n ≤ 0xffffffff then
        some [n % 256, n / 256 % 256, n / 65536 % 256, n / 16777216]
      else none
  | .bytes k, .str s => some (s.take k ++ List.replicate (k - s.length) 0)
  | _, _ => none

/-- `struct.pack` of a whole format string against its argument list;
an argument-count mismatch raises `struct.error`, modelled as `none`. -/
def packValues : List FieldSpec → List Value → Option (List Nat)
  | [], [] => some []
  | f :: fs, v :: vs =>
    match packField f v, packValues fs vs with
    | some b, some r => some (b ++ r)
    | _, _ => none
  | _, _ => none

/-- Errors `Packet.from_data` can raise: `IndexError` on empty input
(from `data[0]`) or the `TypeError` for a wrong leading type byte. -/
inductive PacketError
  | indexError
  | typeKindMismatch
deriving DecidableEq

/-- `Packet.from_data` on a concrete subclass: read the leading byte,
compare it with the subclass tag, and parse the remainder on a match. -/
def Packet.from_data {α : Type} (tag : Nat) (parse : List Nat → α) :
    List Nat → Except PacketError α
  | [] => .error .indexError
  | t :: rest => if t = tag then .ok (parse rest) else .error .typeKindMismatch

/-- A `Command` object: `opcode`, format string and parameters; the
no-argument constructor used by `Command.parse` leaves `opcode` and
`fmt` as `None`. -/
structure Command where
  opcode : Option Nat
  fmt : Option (List FieldSpec)
  params : List Value
deriving DecidableEq

def Command.packet_type : Nat := 1

/-- `Command.serialize`: `struct.pack('<BHB' + fmt, 1, opcode, size, *params)`
with `size = struct.calcsize('<' + fmt)`; a `None` opcode or format
makes `pack`/`calcsize` raise, modelled as `none`. -/
def Command.serialize (c : Command) : Option (List Nat) :=
  match c.fmt, c.opcode with
  | some fs, some op =>
      packValues (FieldSpec.u8 :: FieldSpec.u16 :: FieldSpec.u8 :: fs)
        (Value.nat 1 :: Value.nat op :: Value.nat (calcsize fs) :: c.params)
  | _, _ => none

/-- `Command.parse` ignores its input and returns `cls()`. -/
def Command.parse (_ : List Nat) : Command := ⟨none, none, []⟩

def Command.from_data : List Nat → Except PacketError Command :=
  Packet.from_data Command.packet_type Command.parse

/-- An `Event` object; as for `Command`, `parse` builds it with `None`
code and format. -/
structure Event where
  code : Option Nat
  fmt : Option (List FieldSpec)
  params : List Value
deriving DecidableEq

def Event.packet_type : Nat := 4

/-- `Event.serialize`: `struct.pack('<BB' + fmt, 4, code, size, *params)`.
The format has two header fields but three header values are supplied,
so `size` is matched against the first field of `fmt`. -/
def Event.serialize (e : Event) : Option (List Nat) :=
  match e.fmt, e.code with
  | some fs, some code =>
      packValues (FieldSpec.u8 :: FieldSpec.u8 :: fs)
        (Value.nat 4 :: Value.nat code :: Value.nat (calcsize fs) :: e.params)
  | _, _ => none

/-- `Event.parse` ignores its input and returns `cls()`. -/
def Event.parse (_ : List Nat) : Event := ⟨none, none, []⟩

def Event.from_data : List Nat → Except PacketError Event :=
  Packet.from_data Event.packet_type Event.parse

/-- `gatt.DiscCharsByUUID.__init__`: an `Event` with code `0xfd88` and
format `'HHH%ds' % len(char_type)`. -/
def DiscCharsByUUID (connection_handle start_handle end_handle : Nat)
    (char_type : List Nat) : Event :=
  ⟨some 0xfd88,
   some [FieldSpec.u16, FieldSpec.u16, FieldSpec.u16,
         FieldSpec.bytes char_type.length],
   [Value.nat connection_handle, Value.nat start_handle,
    Value.nat end_handle, Value.str char_type]⟩

/-- `GAP_DeviceDiscoveryRequest` builder (`BluetoothDevice.discovery`). -/
def discovery (mode active_scan white_list : Nat) : Command :=
  ⟨some 0xfe04, some [FieldSpec.u8, FieldSpec.u8, FieldSpec.u8],
   [Value.nat mode, Value.nat active_scan, Value.nat white_list]⟩

/-- The core Bluetooth event code table (`BLUETOOTH_EVENTS`). -/
def BLUETOOTH_EVENTS : List (Nat × String) :=
  [(0x05, "Disconnection Complete"),
   (0x08, "Encryption Change"),
   (0x0c, "Read Remote Version Information Complete"),
   (0x0e, "Command Complete"),
   (0x0f, "Command Status"),
   (0x10, "Hardware Error (optional)"),
   (0x13, "Number Of Completed Packets"),
   (0x1a, "Data Buffer Overflow"),
   (0x30, "Encryption Key Refresh Complete")]

/-- The LE sub-event code table (`BLUETOOTH_LE_EVENTS`). -/
def BLUETOOTH_LE_EVENTS : List (Nat × String) :=
  [(0x01, "LE Connection Complete"),
   (0x02, "LE Advertising Report"),
   (0x03, "LE Connection Update Complete"),
   (0x04, "LE Read Remote Used Features Complete"),
   (0x05, "LE Long Term Key Requested")]

/-- One notification printed by the reader loop. -/
inductive Note
  | vendorEvent
  | bluetoothEvent (name : String)
  | bluetoothLEEvent (name : String)
  | unknownEventCode (code : Nat)
  | wrongPacketType (t : Nat)
deriving DecidableEq

/-- How a run of the reader loop ended. -/
inductive Outcome
  /-- the input stream was exhausted and the loop kept polling normally -/
  | finished
  /-- `serial.SerialException`: caught, `alive := False`, re-raised -/
  | serialFault
  /-- uncaught `KeyError` from `BLUETOOTH_LE_EVENTS[sub_event_code]` -/
  | keyError (k : Nat)
  /-- uncaught `struct.error` from a short `serial.read(2)` result -/
  | unpackError
  /-- uncaught `IndexError` from `params_data[0]` on empty params -/
  | indexError
deriving DecidableEq

/-- Result of running the reader loop: notifications emitted in order,
the way the loop ended, and the session `alive` flag afterwards. -/
structure RunResult where
  notes : List Note
  outcome : Outcome
  alive : Bool
deriving DecidableEq

/-- What classifying one event frame does: print a notification and
continue, or raise an uncaught error. -/
inductive ClassifyResult
  | note (n : Note)
  | stop (o : Outcome)
deriving DecidableEq

/-- The event classification chain of `BluetoothDevice.reader`, in source
order: `0xff`, membership in `BLUETOOTH_EVENTS`, `0x3e` (indexing the
params buffer and the LE table), otherwise unknown. -/
def classifyEvent (event_code : Nat) (params_data : List Nat) : ClassifyResult :=
  if event_code = 0xff then .note .vendorEvent
  else
    match List.lookup event_code BLUETOOTH_EVENTS with
    | some name => .note (.bluetoothEvent name)
    | none =>
      if event_code = 0x3e then
        match params_data with
        | [] => .stop .indexError
        | sub :: _ =>
          match List.lookup sub BLUETOOTH_LE_EVENTS with
          | some name => .note (.bluetoothLEEvent name)
          | none => .stop (.keyError sub)
      else .note (.unknownEventCode event_code)

/-- Prepend a classification's notification to the rest of the run, or
end the run on an uncaught classification error (which leaves `alive`
untouched, i.e. `true`). -/
def afterClassify : ClassifyResult → RunResult → RunResult
  | .note n, r => ⟨n :: r.notes, r.outcome, r.alive⟩
  | .stop o, _ => ⟨[], o, true⟩

/-- One `serial.read(n)` result: the bytes that call returned (at most
`n`; fewer on timeout) or a raised `serial.SerialException`. -/
inductive Chunk
  | bytes (l : List Nat)
  | fault
deriving DecidableEq

/-- The reader loop (`BluetoothDevice.reader`) over a stream of read
results.  Each iteration: read one byte (empty ⇒ timeout, continue); if
it is the Event tag, read two header bytes (`struct.unpack('<BB', ·)`
raises on anything but exactly two) and then `param_len` bytes (short
results are used as-is), classify, and continue; any other leading byte
prints a wrong-packet-type notification and continues.  An exhausted
stream ends the run with `finished`. -/
def readerRun : List Chunk → RunResult
  | [] => ⟨[], .finished, true⟩
  | .fault :: _ => ⟨[], .serialFault, false⟩
  | .bytes [] :: rest => readerRun rest
  | .bytes (b :: _) :: rest =>
    if b = Event.packet_type then
      match rest with
      | [] => ⟨[], .unpackError, true⟩
      | .fault :: _ => ⟨[], .serialFault, false⟩
      | .bytes [event_code, params_len] :: rest2 =>
        if params_len = 0 then
          afterClassify (classifyEvent event_code []) (readerRun rest2)
        else
          match rest2 with
          | [] => afterClassify (classifyEvent event_code []) ⟨[], .finished, true⟩
          | .fault :: _ => ⟨[], .serialFault, false⟩
          | .bytes l3 :: rest3 =>
            afterClassify (classifyEvent event_code (l3.take params_len))
              (readerRun rest3)
      | .bytes _ :: _ => ⟨[], .unpackError, true⟩
    else
      let r := readerRun rest
      ⟨Note.wrongPacketType b :: r.notes, r.outcome, r.alive⟩

/-- One iteration's input to the writer loop: a queue pop yielding a
packet (with whether the subsequent `serial.write` succeeds) or a
`Queue.Empty` timeout. -/
inductive WItem
  | packet (c : Command) (writeOk : Bool)
  | empty

/-- The writer loop (`BluetoothDevice.writer`): pop, serialize, write.
`Queue.Empty` is swallowed; any other exception (a write fault, or a
`struct.error` from `serialize`) is caught by the bare `except`, clears
`alive`, and ends the loop.  Returns the byte strings written, each as
one complete `serial.write` call, and the final `alive` flag. -/
def writerRun : List WItem → List (List Nat) × Bool
  | [] => ([], true)
  | .empty :: rest => writerRun rest
  | .packet c ok :: rest =>
    match c.serialize with
    | none => ([], false)
    | some bs =>
      if ok then
        let r := writerRun rest
        (bs :: r.1, r.2)
      else ([], false)

/-- Packing one field produces exactly `fieldSize` bytes. -/
theorem packField_length {f : FieldSpec} {v : Value} {b : List Nat}
    (h : packField f v = some b) : b.length = fieldSize f := by
  cases f with
  | u8 =>
    cases v with
    | nat n =>
      simp only [packField] at h
      split at h <;> cases h
      rfl
    | str s => simp [packField] at h
  | u16 =>
    cases v with
    | nat n =>
      simp only [packField] at h
      split at h <;> cases h
      rfl
    | str s => simp [packField] at h
  | u32 =>
    cases v with
    | nat n =>
      simp only [packField] at h
      split at h <;> cases h
      rfl
    | str s => simp [packField] at h
  | bytes k =>
    cases v with
    | nat n => simp [packField] at h
    | str s =>
      simp only [packField, Option.some.injEq] at h
      rw [← h]
      simp [fieldSize, List.length_take, List.length_replicate]
      omega

/-- Unfolding of a successful `packValues` step. -/
theorem packValues_eq_some_cons {f : FieldSpec} {fs : List FieldSpec}
    {v : Value} {vs : List Value} {bs : List Nat} :
    packValues (f :: fs) (v :: vs) = some bs ↔
      ∃ b r, packField f v = some b ∧ packValues fs vs = some r ∧ bs = b ++ r := by
  cases hb : packField f v <;> cases hr : packValues fs vs <;>
    simp [packValues, hb, hr, eq_comm]

/-- A successful `packValues` produces exactly `calcsize` bytes. -/
theorem packValues_length :
    ∀ (fs : List FieldSpec) (vs : List Value) (bs : List Nat),
      packValues fs vs = some bs → bs.length = calcsize fs := by
  intro fs
  induction fs with
  | nil =>
    intro vs bs h
    cases vs with
    | nil =>
      simp only [packValues, Option.some.injEq] at h
      simp [← h, calcsize]
    | cons v vs => simp [packValues] at h
  | cons f fs ih =>
    intro vs bs h
    cases vs with
    | nil => simp [packValues] at h
    | cons v vs =>
      rw [packValues_eq_some_cons] at h
      obtain ⟨b, r, hb, hr, rfl⟩ := h
      have h1 := packField_length hb
      have h2 := ih vs r hr
      rw [List.length_append, h1, h2]
      simp [calcsize, fieldSize]

/-- Claim C1: encoding a Command produces exactly
`u8(1) | u16_le(opcode) | u8(param_len) | param_bytes` with `param_len`
equal to the size implied by the field layout; in particular the
`discovery` Command (opcode `0xFE04`, layout `BBB`, values `(3,1,0)`)
encodes to the seven bytes `01 04 FE 03 03 01 00`. -/
theorem command_serialize_wire_format :
  (∀ (op : Nat) (fs : List FieldSpec) (ps : List Value) (bs : List Nat),
     Command.serialize ⟨some op, some fs, ps⟩ = some bs →
     ∃ pb, packValues fs ps = some pb ∧ pb.length = calcsize fs ∧
       bs = 1 :: op % 256 :: op / 256 :: calcsize fs :: pb)
  ∧ (discovery 3 1 0).serialize = some [1, 4, 254, 3, 3, 1, 0] := by
  constructor
  · intro op fs ps bs hser
    simp only [Command.serialize] at hser
    rw [packValues_eq_some_cons] at hser
    obtain ⟨b1, r1, hb1, hr1, rfl⟩ := hser
    simp only [packField, Option.some.injEq] at hb1
    norm_num at hb1
    rw [packValues_eq_some_cons] at hr1
    obtain ⟨b2, r2, hb2, hr2, rfl⟩ := hr1
    simp only [packField] at hb2
    split at hb2
    case isFalse => cases hb2
    case isTrue h1 =>
    rw [packValues_eq_some_cons] at hr2
    obtain ⟨b3, r3, hb3, hr3, rfl⟩ := hr2
    simp only [packField] at hb3
    split at hb3
    case isFalse => cases hb3
    case isTrue h2 =>
    simp only [Option.some.injEq] at hb2 hb3
    refine ⟨r3, hr3, packValues_length fs ps r3 hr3, ?_⟩
    rw [← hb1, ← hb2, ← hb3]
    simp
  · decide

/-- Witness for C1 at the concrete discovery Command. -/
theorem command_serialize_wire_format_witness :
  ∃ pb, packValues [FieldSpec.u8, FieldSpec.u8, FieldSpec.u8]
          [Value.nat 3, Value.nat 1, Value.nat 0] = some pb
    ∧ pb.length = calcsize [FieldSpec.u8, FieldSpec.u8, FieldSpec.u8]
    ∧ [1, 4, 254, 3, 3, 1, 0]
        = 1 :: 0xfe04 % 256 :: 0xfe04 / 256
            :: calcsize [FieldSpec.u8, FieldSpec.u8, FieldSpec.u8] :: pb :=
  command_serialize_wire_format.1 0xfe04 [FieldSpec.u8, FieldSpec.u8, FieldSpec.u8]
    [Value.nat 3, Value.nat 1, Value.nat 0] [1, 4, 254, 3, 3, 1, 0] (by decide)

/-- Claim C2 (code bug): decoding the bytes produced by encoding the
discovery Command yields a Command built by the stub `Command.parse`,
whose opcode is `None` — the round trip does not recover the opcode. -/
theorem command_roundtrip_loses_opcode :
  (discovery 3 1 0).serialize = some [1, 4, 254, 3, 3, 1, 0]
  ∧ Command.from_data [1, 4, 254, 3, 3, 1, 0] = Except.ok ⟨none, none, []⟩
  ∧ (Command.parse [4, 254, 3, 3, 1, 0]).opcode ≠ (discovery 3 1 0).opcode :=
  ⟨by decide, rfl, by simp [Command.parse, discovery]⟩

/-- Claim C7: `from_data` on a known frame kind fails with the type-kind
mismatch error iff the leading byte differs from the variant's fixed tag
(1 for Command, 4 for Event); on a match it constructs that variant. -/
theorem from_data_type_kind_mismatch :
  (∀ (t : Nat) (rest : List Nat),
     (Command.from_data (t :: rest) = Except.error PacketError.typeKindMismatch ↔ t ≠ 1)
     ∧ (t = 1 → Command.from_data (t :: rest) = Except.ok (Command.parse rest)))
  ∧ (∀ (t : Nat) (rest : List Nat),
     (Event.from_data (t :: rest) = Except.error PacketError.typeKindMismatch ↔ t ≠ 4)
     ∧ (t = 4 → Event.from_data (t :: rest) = Except.ok (Event.parse rest))) := by
  constructor
  · intro t rest
    by_cases ht : t = 1 <;>
      simp [Command.from_data, Packet.from_data, Command.packet_type, ht]
  · intro t rest
    by_cases ht : t = 4 <;>
      simp [Event.from_data, Packet.from_data, Event.packet_type, ht]

/-- Witness for C7 at leading bytes 1 (match) and 7 (mismatch). -/
theorem from_data_type_kind_mismatch_witness :
  Command.from_data [1, 9] = Except.ok (Command.parse [9])
  ∧ (Event.from_data [7] = Except.error PacketError.typeKindMismatch ↔ (7 : Nat) ≠ 4) :=
  ⟨(from_data_type_kind_mismatch.1 1 [9]).2 rfl, (from_data_type_kind_mismatch.2 7 []).1⟩

/-- Claim C9: `Event.serialize` packs the event code as one unsigned
byte, so any Event with code above `0xFF` fails to serialize; in
particular `DiscCharsByUUID` (code `0xFD88`) can never serialize. -/
theorem event_code_byte_overflow :
  (∀ (code : Nat) (fs : List FieldSpec) (ps : List Value), 255 < code →
     Event.serialize ⟨some code, some fs, ps⟩ = none)
  ∧ (∀ (ch sh eh : Nat) (ct : List Nat),
     (DiscCharsByUUID ch sh eh ct).serialize = none) := by
  constructor
  · intro code fs ps hcode
    have h : ¬ code ≤ 255 := by omega
    simp [Event.serialize, packValues, packField, h]
  · intro ch sh eh ct
    simp [DiscCharsByUUID, Event.serialize, packValues, packField]

/-- Witness for C9 at code `0xFD88`. -/
theorem event_code_byte_overflow_witness :
  Event.serialize ⟨some 0xfd88, some [], []⟩ = none
  ∧ (DiscCharsByUUID 1 2 3 [7, 8]).serialize = none :=
  ⟨event_code_byte_overflow.1 0xfd88 [] [] (by decide),
   event_code_byte_overflow.2 1 2 3 [7, 8]⟩

/-- `0xff` is not a key of the core event table. -/
theorem lookup_core_ne_ff {ec : Nat} {name : String}
    (h : List.lookup ec BLUETOOTH_EVENTS = some name) : ec ≠ 0xff := by
  intro he
  subst he
  have hn : List.lookup 255 BLUETOOTH_EVENTS = (none : Option String) := rfl
  rw [hn] at h
  cases h

/-- `0x3e` is not a key of the core event table. -/
theorem lookup_core_at_3e :
    List.lookup 0x3e BLUETOOTH_EVENTS = (none : Option String) := rfl

/-- Claim C3 (code bug): on an event frame with code `0x3E` and a
sub-event byte absent from the LE table, the reader raises an uncaught
`KeyError`: the run ends with no notification, the loop does not
continue, and `alive` is left `true` (the fault handler never ran). -/
theorem unknown_le_subevent_crashes_reader :
  readerRun [Chunk.bytes [4], Chunk.bytes [62, 1], Chunk.bytes [6]]
    = ⟨[], Outcome.keyError 6, true⟩
  ∧ Outcome.keyError 6 ≠ Outcome.serialFault := by decide

/-- Claim C4: a leading byte that is neither 1 nor 4 produces a
wrong-packet-type notification, consumes only that read, and the loop
continues with the next byte as a fresh frame-kind byte. -/
theorem malformed_header_resync :
  ∀ (b : Nat) (t : List Nat) (rest : List Chunk), b ≠ 1 → b ≠ 4 →
    readerRun (Chunk.bytes (b :: t) :: rest)
      = ⟨Note.wrongPacketType b :: (readerRun rest).notes,
         (readerRun rest).outcome, (readerRun rest).alive⟩ := by
  intro b t rest h1 h4
  rw [readerRun.eq_def]
  simp [Event.packet_type, h4]

/-- Witness for C4 at leading byte 7. -/
theorem malformed_header_resync_witness :
  readerRun [Chunk.bytes [7]] = ⟨[Note.wrongPacketType 7], Outcome.finished, true⟩ := by
  have h := malformed_header_resync 7 [] [] (by decide) (by decide)
  simpa [readerRun] using h

/-- Claim C5: frames whose event code is registered in the core table
emit exactly the registered name; `0x3E` frames whose first parameter
byte is registered in the LE table emit exactly the registered LE name;
and the tables map the enumerated endpoint codes to their names. -/
theorem event_tables_emit_registered_names :
  (∀ (ec : Nat) (name : String) (t : List Nat) (rest : List Chunk),
     List.lookup ec BLUETOOTH_EVENTS = some name →
     readerRun (Chunk.bytes (4 :: t) :: Chunk.bytes [ec, 0] :: rest)
       = ⟨Note.bluetoothEvent name :: (readerRun rest).notes,
          (readerRun rest).outcome, (readerRun rest).alive⟩)
  ∧ (∀ (sub : Nat) (name : String) (t : List Nat) (pl : Nat) (t3 : List Nat)
       (rest : List Chunk), pl ≠ 0 →
     List.lookup sub BLUETOOTH_LE_EVENTS = some name →
     readerRun (Chunk.bytes (4 :: t) :: Chunk.bytes [0x3e, pl]
                  :: Chunk.bytes (sub :: t3) :: rest)
       = ⟨Note.bluetoothLEEvent name :: (readerRun rest).notes,
          (readerRun rest).outcome, (readerRun rest).alive⟩)
  ∧ List.lookup 0x05 BLUETOOTH_EVENTS = some "Disconnection Complete"
  ∧ List.lookup 0x30 BLUETOOTH_EVENTS = some "Encryption Key Refresh Complete"
  ∧ List.lookup 0x01 BLUETOOTH_LE_EVENTS = some "LE Connection Complete"
  ∧ List.lookup 0x05 BLUETOOTH_LE_EVENTS = some "LE Long Term Key Requested" := by
  refine ⟨?_, ?_, rfl, rfl, rfl, rfl⟩
  · intro ec name t rest h
    have hff := lookup_core_ne_ff h
    rw [readerRun.eq_def]
    simp [Event.packet_type, classifyEvent, afterClassify, hff, h]
  · intro sub name t pl t3 rest hpl h
    obtain ⟨m, rfl⟩ : ∃ m, pl = m + 1 := ⟨pl - 1, by omega⟩
    simp [readerRun, Event.packet_type, classifyEvent, afterClassify,
      lookup_core_at_3e, h, List.take_succ_cons]

/-- Witness for C5 at codes `0x05` and LE `0x01`. -/
theorem event_tables_emit_registered_names_witness :
  readerRun [Chunk.bytes [4], Chunk.bytes [5, 0]]
    = ⟨[Note.bluetoothEvent "Disconnection Complete"], Outcome.finished, true⟩
  ∧ readerRun [Chunk.bytes [4], Chunk.bytes [62, 1], Chunk.bytes [1]]
    = ⟨[Note.bluetoothLEEvent "LE Connection Complete"], Outcome.finished, true⟩ := by
  constructor
  · have h := event_tables_emit_registered_names.1 5 "Disconnection Complete" [] [] rfl
    simpa [readerRun] using h
  · have h := event_tables_emit_registered_names.2.1 1 "LE Connection Complete"
      [] 1 [] [] (by decide) rfl
    simpa [readerRun] using h

/-- Claim C6 counterexample: a stream with no transport fault, in which
an `0x3E` frame carries the unregistered sub-event `0x06`, terminates
the reader loop (outcome `keyError`, not `finished` or `serialFault`)
before a later well-formed frame — which alone decodes fine — is ever
processed.  So a classification anomaly does terminate the reader. -/
theorem classification_anomaly_terminates_reader :
  readerRun [Chunk.bytes [4], Chunk.bytes [62, 1], Chunk.bytes [6],
             Chunk.bytes [4], Chunk.bytes [5, 0]]
    = ⟨[], Outcome.keyError 6, true⟩
  ∧ readerRun [Chunk.bytes [4], Chunk.bytes [5, 0]]
    = ⟨[Note.bluetoothEvent "Disconnection Complete"], Outcome.finished, true⟩ := by
  decide

/-- Claim C6 amended: a transport fault on any of the reader's reads
sets `alive` to false, propagates and terminates the loop; any
exception in the writer (a write fault, or a serialization error) sets
`alive` to false and terminates its loop; but not only transport faults
are fatal: an `0x3E` frame with an unregistered sub-event terminates the
reader loop via an uncaught `KeyError`, leaving `alive` true. -/
theorem fault_propagation_amended :
  (∀ rest, readerRun (Chunk.fault :: rest) = ⟨[], Outcome.serialFault, false⟩)
  ∧ (∀ (t : List Nat) rest,
      readerRun (Chunk.bytes (4 :: t) :: Chunk.fault :: rest)
        = ⟨[], Outcome.serialFault, false⟩)
  ∧ (∀ (t : List Nat) (ec pl : Nat) rest, pl ≠ 0 →
      readerRun (Chunk.bytes (4 :: t) :: Chunk.bytes [ec, pl] :: Chunk.fault :: rest)
        = ⟨[], Outcome.serialFault, false⟩)
  ∧ (∀ (c : Command) rest, writerRun (WItem.packet c false :: rest) = ([], false))
  ∧ (∀ (c : Command) (ok : Bool) rest, c.serialize = none →
      writerRun (WItem.packet c ok :: rest) = ([], false))
  ∧ (∀ (t : List Nat) (pl sub : Nat) (t3 : List Nat) rest, pl ≠ 0 →
      List.lookup sub BLUETOOTH_LE_EVENTS = none →
      readerRun (Chunk.bytes (4 :: t) :: Chunk.bytes [0x3e, pl]
                   :: Chunk.bytes (sub :: t3) :: rest)
        = ⟨[], Outcome.keyError sub, true⟩) := by
  refine ⟨?_, ?_, ?_, ?_, ?_, ?_⟩
  · intro rest; simp [readerRun]
  · intro t rest; simp [readerRun, Event.packet_type]
  · intro t ec pl rest hpl
    obtain ⟨m, rfl⟩ : ∃ m, pl = m + 1 := ⟨pl - 1, by omega⟩
    simp [readerRun, Event.packet_type]
  · intro c rest
    cases hs : c.serialize <;> simp [writerRun, hs]
  · intro c ok rest h; simp [writerRun, h]
  · intro t pl sub t3 rest hpl h
    obtain ⟨m, rfl⟩ : ∃ m, pl = m + 1 := ⟨pl - 1, by omega⟩
    simp [readerRun, Event.packet_type, classifyEvent, afterClassify,
      lookup_core_at_3e, h, List.take_succ_cons]

/-- Witness for the amended C6. -/
theorem fault_propagation_amended_witness :
  readerRun [Chunk.bytes [4], Chunk.bytes [62, 2], Chunk.fault]
    = ⟨[], Outcome.serialFault, false⟩
  ∧ writerRun [WItem.packet ⟨none, none, []⟩ true] = ([], false)
  ∧ readerRun [Chunk.bytes [4], Chunk.bytes [62, 1], Chunk.bytes [9]]
    = ⟨[], Outcome.keyError 9, true⟩ :=
  ⟨fault_propagation_amended.2.2.1 [] 62 2 [] (by decide),
   fault_propagation_amended.2.2.2.2.1 ⟨none, none, []⟩ true [] rfl,
   fault_propagation_amended.2.2.2.2.2 [] 1 9 [] [] (by decide) (by decide)⟩

/-- Claim C8: commands enqueued in order are transmitted in that exact
order, each as one complete unfragmented write, with no reordering or
coalescing; empty queue polls do not disturb the run. -/
theorem writer_preserves_enqueue_order :
  (∀ (c1 c2 c3 : Command) (b1 b2 b3 : List Nat),
     c1.serialize = some b1 → c2.serialize = some b2 → c3.serialize = some b3 →
     writerRun [WItem.packet c1 true, WItem.packet c2 true, WItem.packet c3 true]
       = ([b1, b2, b3], true))
  ∧ (∀ l, writerRun (WItem.empty :: l) = writerRun l) := by
  constructor
  · intro c1 c2 c3 b1 b2 b3 h1 h2 h3
    simp [writerRun, h1, h2, h3]
  · intro l; simp [writerRun]

/-- Witness for C8 with three discovery Commands. -/
theorem writer_preserves_enqueue_order_witness :
  writerRun [WItem.packet (discovery 3 1 0) true, WItem.packet (discovery 1 0 0) true,
             WItem.packet (discovery 0 0 1) true]
    = ([[1, 4, 254, 3, 3, 1, 0], [1, 4, 254, 3, 1, 0, 0], [1, 4, 254, 3, 0, 0, 1]], true) :=
  writer_preserves_enqueue_order.1 (discovery 3 1 0) (discovery 1 0 0) (discovery 0 0 1)
    [1, 4, 254, 3, 3, 1, 0] [1, 4, 254, 3, 1, 0, 0] [1, 4, 254, 3, 0, 0, 1]
    (by decide) (by decide) (by decide)

/-- Claim C10: only the initial frame-kind read tolerates an empty
(timed-out) result; a header read of fewer than two bytes, or an `0x3E`
frame with an empty params buffer, ends the loop with an uncaught
unpacking or indexing error, leaving `alive` true. -/
theorem reader_short_read_crashes :
  (∀ rest, readerRun (Chunk.bytes [] :: rest) = readerRun rest)
  ∧ (∀ (t : List Nat) (l2 : List Nat) rest, l2.length < 2 →
      readerRun (Chunk.bytes (4 :: t) :: Chunk.bytes l2 :: rest)
        = ⟨[], Outcome.unpackError, true⟩)
  ∧ (∀ (t : List Nat) rest,
      readerRun (Chunk.bytes (4 :: t) :: Chunk.bytes [0x3e, 0] :: rest)
        = ⟨[], Outcome.indexError, true⟩)
  ∧ (∀ (t : List Nat) (pl : Nat) rest, pl ≠ 0 →
      readerRun (Chunk.bytes (4 :: t) :: Chunk.bytes [0x3e, pl] :: Chunk.bytes [] :: rest)
        = ⟨[], Outcome.indexError, true⟩) := by
  refine ⟨?_, ?_, ?_, ?_⟩
  · intro rest; simp [readerRun]
  · intro t l2 rest h
    cases l2 with
    | nil => simp [readerRun, Event.packet_type]
    | cons a l2 =>
      cases l2 with
      | nil => simp [readerRun, Event.packet_type]
      | cons a2 l2 => simp at h; omega
  · intro t rest
    rw [readerRun.eq_def]
    simp [Event.packet_type, classifyEvent, afterClassify, lookup_core_at_3e]
  · intro t pl rest hpl
    obtain ⟨m, rfl⟩ : ∃ m, pl = m + 1 := ⟨pl - 1, by omega⟩
    simp [readerRun, Event.packet_type, classifyEvent, afterClassify, lookup_core_at_3e]

/-- Witness for C10 at a one-byte header and an empty params read. -/
theorem reader_short_read_crashes_witness :
  readerRun [Chunk.bytes [4], Chunk.bytes [62]] = ⟨[], Outcome.unpackError, true⟩
  ∧ readerRun [Chunk.bytes [4], Chunk.bytes [62, 3], Chunk.bytes []]
    = ⟨[], Outcome.indexError, true⟩ :=
  ⟨reader_short_read_crashes.2.1 [] [62] [] (by decide),
   reader_short_read_crashes.2.2.2 [] 3 [] (by decide)⟩
